import Mathlib

/-!
# shipping_handling: endpoint adapter and process supervisor

A shallow embedding of `handling/endpoint.go` and `main.go`.

Go code with side effects is embedded in state-passing style: a method that
may touch the outside world takes the world state `σ` and returns its result
together with the new state.  A Go `error` result is an `Option Error`
(`none` is Go's `nil`).  A function that may panic returns an `Outcome`.
-/

namespace Handling

/-! ## Values moved through the endpoint (`handling/endpoint.go`) -/

/-- A non-nil Go `error` value, identified by what `Error()` prints. -/
structure Error where
  msg : String
  deriving DecidableEq, Repr

/-- The Go type `cargo.TrackingID`; `main.go` converts string constants to it. -/
abbrev TrackingID := String

/-- The Go type `location.UNLocode`, declared in an external package. -/
structure UNLocode where
  code : String
  deriving DecidableEq, Repr

/-- The Go type `voyage.Number`, declared in an external package. -/
structure VoyageNumber where
  number : String
  deriving DecidableEq, Repr

/-- The Go type `cargo.HandlingEventType`, declared in an external package. -/
structure HandlingEventType where
  code : Int
  deriving DecidableEq, Repr

/-- The Go type `time.Time`, as an instant on the time line. -/
structure Time where
  unixNano : Int
  deriving DecidableEq, Repr

/-- The Go type `context.Context`; the endpoint never looks at it. -/
structure Context where
  id : Nat
  deriving DecidableEq, Repr

/-- The struct `registerIncidentRequest` of `endpoint.go`, fields in source order. -/
structure registerIncidentRequest where
  ID : TrackingID
  Location : UNLocode
  Voyage : VoyageNumber
  EventType : HandlingEventType
  CompletionTime : Time
  deriving DecidableEq, Repr

/-- The struct `registerIncidentResponse` of `endpoint.go`. -/
structure registerIncidentResponse where
  Err : Option Error
  deriving DecidableEq, Repr

/-- The method `func (r registerIncidentResponse) error() error`. -/
def registerIncidentResponse.error (r : registerIncidentResponse) : Option Error :=
  r.Err

/-- A value of Go type `interface{}`, by dynamic type: the nil interface, a
boxed `registerIncidentRequest`, a boxed `registerIncidentResponse`, or a value
of any other dynamic type (named by `dynType`, for instance a pointer
`*handling.registerIncidentRequest` or a `string`). -/
inductive Interface where
  | nil
  | boxRequest (req : registerIncidentRequest)
  | boxResponse (resp : registerIncidentResponse)
  | other (dynType : String)
  deriving DecidableEq, Repr

/-- The name of the dynamic type held by an interface value; `none` for nil. -/
def Interface.dynType : Interface → Option String
  | .nil => none
  | .boxRequest _ => some "handling.registerIncidentRequest"
  | .boxResponse _ => some "handling.registerIncidentResponse"
  | .other t => some t

/-- Whether the dynamic type of the value is `registerIncidentRequest`. -/
def Interface.isRequest : Interface → Bool
  | .boxRequest _ => true
  | _ => false

/-- What a Go panic carries: the run-time error of a failed type assertion
(with the dynamic type that was found) or a value passed to `panic`. -/
inductive Panic where
  | typeAssertion (found : Option String)
  | value (err : Error)
  deriving DecidableEq, Repr

/-- How a Go call ends: it returns a value or it panics. -/
inductive Outcome (α : Type) where
  | returned (a : α)
  | panicked (p : Panic)
  deriving DecidableEq, Repr

/-- The interface `handling.Service` over a world state `σ`: its one method
`RegisterHandlingEvent(completionTime, trackingID, voyageNumber, locationCode,
eventType) error`. -/
structure Service (σ : Type) where
  RegisterHandlingEvent :
    Time → TrackingID → VoyageNumber → UNLocode → HandlingEventType → σ → Option Error × σ

/-- The go-kit type `endpoint.Endpoint`:
`func(ctx context.Context, request interface{}) (interface{}, error)`. -/
abbrev Endpoint (σ : Type) :=
  Context → Interface → σ → Outcome (Interface × Option Error) × σ

/-- The function `makeRegisterIncidentEndpoint` of `endpoint.go`. The unchecked
assertion `request.(registerIncidentRequest)` panics unless the dynamic type
is `registerIncidentRequest`. -/
def makeRegisterIncidentEndpoint {σ : Type} (hs : Service σ) : Endpoint σ :=
  fun _ctx request s =>
    match request with
    | .boxRequest req =>
      let (err, s) :=
        hs.RegisterHandlingEvent req.CompletionTime req.ID req.Voyage req.Location req.EventType s
      (.returned (.boxResponse { Err := err }, none), s)
    | other => (.panicked (.typeAssertion other.dynType), s)

/-- One recorded call of `RegisterHandlingEvent`, arguments by parameter name. -/
structure Call where
  completionTime : Time
  trackingID : TrackingID
  voyageNumber : VoyageNumber
  locationCode : UNLocode
  eventType : HandlingEventType
  deriving DecidableEq, Repr

/-- A service that behaves as `hs` and also appends every call it receives to a
journal kept next to the state of `hs`. -/
def Service.recording {σ : Type} (hs : Service σ) : Service (σ × List Call) where
  RegisterHandlingEvent := fun t id v l e st =>
    let r := hs.RegisterHandlingEvent t id v l e st.1
    (r.1, (r.2, st.2 ++ [⟨t, id, v, l, e⟩]))

/-- A sample service: refuses an empty tracking ID and counts accepted events. -/
def sampleService : Service Nat where
  RegisterHandlingEvent := fun _ id _ _ _ n =>
    if id = "" then (some ⟨"unknown cargo"⟩, n) else (none, n + 1)

end Handling

namespace Main

open Handling

/-! ## HTTP values used by `accessControl` (`main.go`) -/

/-- The bytes `textproto` accepts in a header field name: letters, digits and
the punctuation of an HTTP token, listed here by character code. -/
def validHeaderFieldByte (c : Char) : Bool :=
  c.isAlphanum || [33, 35, 36, 37, 38, 39, 42, 43, 45, 46, 94, 95, 96, 124, 126].contains c.toNat

/-- The loop of `textproto.canonicalMIMEHeaderKey`: upper case for the first
letter and for a letter after a dash, lower case elsewhere. -/
def canonicalLoop : Bool → List Char → List Char
  | _, [] => []
  | upper, c :: cs =>
    let c := if upper then c.toUpper else c.toLower
    c :: canonicalLoop (c == '-') cs

/-- The function `textproto.CanonicalMIMEHeaderKey`: a key holding a byte that is
not valid in a field name is returned unchanged. -/
def CanonicalMIMEHeaderKey (s : String) : String :=
  if s.data.all validHeaderFieldByte then String.mk (canonicalLoop true s.data) else s

/-- The Go type `http.Header`, a map from canonical key to values. -/
structure Header where
  entries : List (String × List String)
  deriving DecidableEq, Repr

/-- The method `Header.Set`: the key is canonicalised and its values are
replaced by the single value given. -/
def Header.Set (h : Header) (key value : String) : Header :=
  let k := CanonicalMIMEHeaderKey key
  ⟨(k, [value]) :: h.entries.filter (fun kv => kv.1 != k)⟩

/-- The method `Header.Get`: the first value under the canonical key, or `""`. -/
def Header.Get (h : Header) (key : String) : String :=
  match h.entries.lookup (CanonicalMIMEHeaderKey key) with
  | some (v :: _) => v
  | _ => ""

/-- The part of `*http.Request` that `accessControl` reads, and what identifies
the request to the wrapped handler. -/
structure Request where
  Method : String
  Path : String
  Body : String
  deriving DecidableEq, Repr

/-- The state behind an `http.ResponseWriter`: the header map, the status
passed to `WriteHeader` (`none` while it was not called) and the body written. -/
structure ResponseWriter where
  header : Header
  status : Option Nat
  body : String
  deriving DecidableEq, Repr

/-- The writer the server hands to a handler for a new request. -/
def ResponseWriter.fresh : ResponseWriter :=
  { header := ⟨[]⟩, status := none, body := "" }

/-- The statement `w.Header().Set(key, value)`. -/
def ResponseWriter.headerSet (w : ResponseWriter) (key value : String) : ResponseWriter :=
  { w with header := w.header.Set key value }

/-- The status the server sends when the handler is done: the one passed to
`WriteHeader`, or `http.StatusOK` when the handler never set one. -/
def ResponseWriter.statusCode (w : ResponseWriter) : Nat :=
  w.status.getD 200

/-- The interface `http.Handler`: `ServeHTTP(w, r)` acts on the writer and on
the world state `σ`. -/
abbrev Handler (σ : Type) := ResponseWriter → Request → σ → ResponseWriter × σ

/-- The function `accessControl` of `main.go`. -/
def accessControl {σ : Type} (h : Handler σ) : Handler σ :=
  fun w r s =>
    let w := w.headerSet "Access-Control-Allow-Origin" "*"
    let w := w.headerSet "Access-Control-Allow-Methods" "GET, POST, OPTIONS"
    let w := w.headerSet "Access-Control-Allow-Headers" "Origin, Content-Type"
    if r.Method = "OPTIONS" then
      (w, s)
    else
      h w r s

/-- A handler that behaves as `h` and also appends every invocation, with the
writer as it was handed over and the request, to a journal. -/
def recordingHandler {σ : Type} (h : Handler σ) :
    Handler (σ × List (ResponseWriter × Request)) :=
  fun w r st =>
    let out := h w r st.1
    (out.1, (out.2, st.2 ++ [(w, r)]))

/-- A sample handler: answers 204 and counts the requests it served. -/
def sampleHandler : Handler Nat :=
  fun w _ n => ({ w with status := some 204 }, n + 1)

/-! ## Configuration (`envString` and the flag defaults of `main`) -/

/-- The process environment: the value of each variable that is set. -/
abbrev Environ := String → Option String

/-- The function `os.Getenv`: the value, which is empty when the variable is
not present. -/
def Getenv (environ : Environ) (key : String) : String :=
  (environ key).getD ""

/-- The function `envString` of `main.go`. -/
def envString (environ : Environ) (env fallback : String) : String :=
  let e := Getenv environ env
  if e = "" then
    fallback
  else
    e

/-- The constant `defaultPort` of `main.go`. -/
def defaultPort : String := "8082"

/-- The constant `defaultRoutingServiceURL` of `main.go`. -/
def defaultRoutingServiceURL : String := "http://localhost:7878"

/-- A flag as `flag.String(name, value, usage)` declares it. -/
structure Flag where
  name : String
  value : String
  usage : String
  deriving DecidableEq, Repr

/-- The two flags `main` declares, with the defaults it computes. -/
def mainFlags (environ : Environ) : List Flag :=
  let addr := envString environ "PORT" defaultPort
  let rsurl := envString environ "ROUTINGSERVICE_URL" defaultRoutingServiceURL
  [ ⟨"http.addr", ":" ++ addr, "HTTP listen address"⟩,
    ⟨"service.routing", rsurl, "routing service URL"⟩ ]

/-- The default value of the flag called `name`, if `main` declares it. -/
def flagDefault (environ : Environ) (name : String) : Option String :=
  ((mainFlags environ).find? (fun f => f.name == name)).map Flag.value

/-! ## Test data (`storeTestData`) -/

/-- The struct `cargo.RouteSpecification`, with the fields `main.go` fills. -/
structure RouteSpecification where
  Origin : UNLocode
  Destination : UNLocode
  ArrivalDeadline : Time
  deriving DecidableEq, Repr

/-- What `storeTestData` uses from external packages: the constructor
`cargo.New`, the three locations of package `location`, and `Time.AddDate`. -/
structure External (Cargo : Type) where
  New : TrackingID → RouteSpecification → Cargo
  AUMEL : UNLocode
  SESTO : UNLocode
  CNHKG : UNLocode
  AddDate : Time → Int → Int → Int → Time

/-- The interface `cargo.Repository`, by the one method `storeTestData` calls. -/
structure Repository (Cargo σ : Type) where
  Store : Cargo → σ → Option Error × σ

/-- The function `storeTestData` of `main.go`; `now₁` and `now₂` are the two
readings of `time.Now()`. -/
def storeTestData {Cargo σ : Type} (x : External Cargo) (r : Repository Cargo σ)
    (now₁ now₂ : Time) (s : σ) : Outcome Unit × σ :=
  let test1 := x.New "FTL456"
    { Origin := x.AUMEL, Destination := x.SESTO, ArrivalDeadline := x.AddDate now₁ 0 0 7 }
  match r.Store test1 s with
  | (some err, s) => (.panicked (.value err), s)
  | (none, s) =>
    let test2 := x.New "ABC123"
      { Origin := x.SESTO, Destination := x.CNHKG, ArrivalDeadline := x.AddDate now₂ 0 0 14 }
    match r.Store test2 s with
    | (some err, s) => (.panicked (.value err), s)
    | (none, s) => (.returned (), s)

/-- A repository that behaves as `r` and also appends every cargo passed to
`Store` to a journal. -/
def recordingRepository {Cargo σ : Type} (r : Repository Cargo σ) :
    Repository Cargo (σ × List Cargo) where
  Store := fun c st =>
    let out := r.Store c st.1
    (out.1, (out.2, st.2 ++ [c]))

/-- A sample cargo type: the tracking ID and the route specification. -/
structure SampleCargo where
  TrackingID : TrackingID
  Origin : UNLocode
  RouteSpecification : RouteSpecification
  deriving DecidableEq, Repr

/-- Sample external values: locations named by their codes, days added as
nanoseconds. -/
def sampleExternal : External SampleCargo where
  New := fun id rs => ⟨id, rs.Origin, rs⟩
  AUMEL := ⟨"AUMEL"⟩
  SESTO := ⟨"SESTO"⟩
  CNHKG := ⟨"CNHKG"⟩
  AddDate := fun t _ _ d => ⟨t.unixNano + d * 86400000000000⟩

/-- A sample repository in memory: `Store` puts the cargo in front and succeeds. -/
def sampleRepository : Repository SampleCargo (List SampleCargo) where
  Store := fun c cs => (none, c :: cs)

/-- A sample repository whose `Store` fails once `limit` cargos are held. -/
def boundedRepository (limit : Nat) : Repository SampleCargo (List SampleCargo) where
  Store := fun c cs => if cs.length < limit then (none, c :: cs) else (some ⟨"repository full"⟩, cs)

/-! ## The service chain assembled by `main` -/

/-- The options struct given to `NewCounterFrom` and `NewSummaryFrom`. -/
structure MetricOpts where
  Namespace : String
  Subsystem : String
  Name : String
  Help : String
  deriving DecidableEq, Repr

/-- What `main` takes from files and packages outside `main.go` to assemble the
handling service: the types involved and the constructors it calls. -/
structure Wiring where
  Logger : Type
  Counter : Type
  Summary : Type
  Events : Type
  Factory : Type
  EventHandler : Type
  Svc : Type
  HTTPHandler : Type
  With : Logger → String → String → Logger
  NewCounterFrom : MetricOpts → List String → Counter
  NewSummaryFrom : MetricOpts → List String → Summary
  NewService : Events → Factory → EventHandler → Svc
  NewLoggingService : Logger → Svc → Svc
  NewInstrumentingService : Counter → Summary → Svc → Svc
  MakeHandler : Svc → Logger → HTTPHandler

/-- The lines of `main` that build `hs` and hand it to `handling.MakeHandler`:
the variable `hs` is assigned three times, each time from its previous value. -/
def mainHandler (k : Wiring) (logger : k.Logger) (handlingEvents : k.Events)
    (handlingEventFactory : k.Factory) (handlingEventHandler : k.EventHandler) :
    k.HTTPHandler :=
  let fieldKeys := ["method"]
  let hs := k.NewService handlingEvents handlingEventFactory handlingEventHandler
  let hs := k.NewLoggingService (k.With logger "component" "handling") hs
  let hs := k.NewInstrumentingService
    (k.NewCounterFrom
      { Namespace := "api", Subsystem := "handling_service", Name := "request_count",
        Help := "Number of requests received." } fieldKeys)
    (k.NewSummaryFrom
      { Namespace := "api", Subsystem := "handling_service",
        Name := "request_latency_microseconds",
        Help := "Total duration of requests in microseconds." } fieldKeys)
    hs
  let httpLogger := k.With logger "component" "http"
  k.MakeHandler hs httpLogger

/-- The three kinds of service in the chain. -/
inductive Layer where
  | Instrumenting
  | Logging
  | Core
  deriving DecidableEq, Repr

/-- A service value described by the constructor calls that made it. -/
inductive ServiceTerm where
  | core (events factory handler : String)
  | logging (logger : List (String × String)) (next : ServiceTerm)
  | instrumenting (counter summary : MetricOpts × List String) (next : ServiceTerm)
  deriving DecidableEq, Repr

/-- The services a call passes through, outermost first: a decorator is
entered first and forwards to the service it wraps. -/
def ServiceTerm.chain : ServiceTerm → List Layer
  | .core _ _ _ => [.Core]
  | .logging _ next => .Logging :: next.chain
  | .instrumenting _ _ next => .Instrumenting :: next.chain

/-- The wiring in which every constructor records its arguments; a logger is
the list of its context pairs, newest last. -/
def termWiring : Wiring where
  Logger := List (String × String)
  Counter := MetricOpts × List String
  Summary := MetricOpts × List String
  Events := String
  Factory := String
  EventHandler := String
  Svc := ServiceTerm
  HTTPHandler := ServiceTerm × List (String × String)
  With := fun l k v => l ++ [(k, v)]
  NewCounterFrom := fun o keys => (o, keys)
  NewSummaryFrom := fun o keys => (o, keys)
  NewService := .core
  NewLoggingService := .logging
  NewInstrumentingService := .instrumenting
  MakeHandler := fun hs l => (hs, l)

/-! ## The supervisor: the two goroutines and the channel `errs` of `main` -/

/-- The signals that end a Go process by default. -/
inductive Signal where
  | SIGHUP
  | SIGINT
  | SIGQUIT
  | SIGTERM
  deriving DecidableEq, Repr

/-- The method `syscall.Signal.String` on these signals. -/
def Signal.toString : Signal → String
  | .SIGHUP => "hangup"
  | .SIGINT => "interrupt"
  | .SIGQUIT => "quit"
  | .SIGTERM => "terminated"

/-- The expression `fmt.Errorf("%s", sig)`. -/
def Errorf (sig : Signal) : Error :=
  ⟨sig.toString⟩

/-- The two goroutines `main` starts. -/
inductive Task where
  | listener
  | watcher
  deriving DecidableEq, Repr

/-- Where the listener goroutine stands: before its log line, inside
`http.ListenAndServe`, about to send the error it returned on `errs`, finished. -/
inductive ListenerPC where
  | start
  | serving
  | sending (err : Error)
  | done
  deriving DecidableEq, Repr

/-- Where the watcher goroutine stands: before `signal.Notify`, after it but not
yet blocked on `<-c`, blocked on `<-c`, about to send on `errs`, finished. -/
inductive WatcherPC where
  | start
  | registered
  | receiving
  | sending (err : Error)
  | done
  deriving DecidableEq, Repr

/-- Where `main` stands after starting the goroutines: blocked on `<-errs`,
holding the value received and about to log it, returned. -/
inductive SupervisorPC where
  | receiving
  | logging (err : Error)
  | returned
  deriving DecidableEq, Repr

/-- A value in a log record. -/
inductive LogValue where
  | str (s : String)
  | err (e : Error)
  deriving DecidableEq, Repr

/-- The key/value pairs of one `logger.Log` call (the timestamp the logger adds
is left out). -/
abbrev LogRecord := List (String × LogValue)

/-- The state of the process from line `errs := make(chan error, 2)` on. `errs`
is the channel buffer, oldest value first; `sent` and `received` are the
histories of sends on and receives from `errs`. -/
structure State where
  listener : ListenerPC
  watcher : WatcherPC
  supervisor : SupervisorPC
  errs : List Error
  killed : Option Signal
  log : List LogRecord
  sent : List (Task × Error)
  received : List Error
  deriving DecidableEq, Repr

/-- The capacity given in `make(chan error, 2)`. -/
def errsCap : Nat := 2

/-- The state right after both `go` statements: `main` is at `<-errs`. -/
def State.init : State :=
  { listener := .start, watcher := .start, supervisor := .receiving, errs := [],
    killed := none, log := [], sent := [], received := [] }

/-- The process runs: no signal has ended it and `main` has not returned. -/
def State.alive (s : State) : Bool :=
  s.killed.isNone && s.supervisor != .returned

/-- The spec's state RUNNING: the process runs and `main` waits on `<-errs`. -/
def State.running (s : State) : Bool :=
  s.killed.isNone && s.supervisor == .receiving

/-- What can happen next: a step of one goroutine or of `main`, or a signal
arriving at the process. -/
inductive Event where
  | listenerLog
  | listenerFail (err : Error)
  | listenerSend
  | watcherNotify
  | watcherWait
  | watcherSend
  | supervisorReceive
  | supervisorLog
  | signal (sig : Signal)
  deriving DecidableEq, Repr

/-- The record of `logger.Log("transport", "http", "address", *httpAddr, "msg",
"listening")`. -/
def listeningRecord (httpAddr : String) : LogRecord :=
  [("transport", .str "http"), ("address", .str httpAddr), ("msg", .str "listening")]

/-- The record of `logger.Log("terminated", <-errs)`. -/
def terminatedRecord (err : Error) : LogRecord :=
  [("terminated", .err err)]

/-- The effect of an event on a running process; `none` when the event cannot
happen in this state (a send on a full channel and a receive from an empty one
block). A signal other than the registered SIGINT, or SIGINT before
`signal.Notify`, ends the process; a relayed SIGINT reaches the watcher only if
it is blocked on the unbuffered channel `c`, and is dropped otherwise. -/
def act (httpAddr : String) (s : State) : Event → Option State
  | .listenerLog =>
    match s.listener with
    | .start => some { s with listener := .serving, log := s.log ++ [listeningRecord httpAddr] }
    | _ => none
  | .listenerFail err =>
    match s.listener with
    | .serving => some { s with listener := .sending err }
    | _ => none
  | .listenerSend =>
    match s.listener with
    | .sending err =>
      if s.errs.length < errsCap then
        some { s with listener := .done, errs := s.errs ++ [err],
                      sent := s.sent ++ [(.listener, err)] }
      else none
    | _ => none
  | .watcherNotify =>
    match s.watcher with
    | .start => some { s with watcher := .registered }
    | _ => none
  | .watcherWait =>
    match s.watcher with
    | .registered => some { s with watcher := .receiving }
    | _ => none
  | .watcherSend =>
    match s.watcher with
    | .sending err =>
      if s.errs.length < errsCap then
        some { s with watcher := .done, errs := s.errs ++ [err],
                      sent := s.sent ++ [(.watcher, err)] }
      else none
    | _ => none
  | .supervisorReceive =>
    match s.supervisor, s.errs with
    | .receiving, v :: rest =>
      some { s with supervisor := .logging v, errs := rest, received := s.received ++ [v] }
    | _, _ => none
  | .supervisorLog =>
    match s.supervisor with
    | .logging v => some { s with supervisor := .returned, log := s.log ++ [terminatedRecord v] }
    | _ => none
  | .signal sig =>
    if sig = .SIGINT ∧ s.watcher ≠ .start then
      match s.watcher with
      | .receiving => some { s with watcher := .sending (Errorf sig) }
      | _ => some s
    else
      some { s with killed := some sig }

/-- One step of the process: nothing happens once it has ended. -/
def step (httpAddr : String) (s : State) (ev : Event) : Option State :=
  if s.alive then act httpAddr s ev else none

/-- The state after a sequence of events, `none` if one of them cannot happen. -/
def run (httpAddr : String) (s : State) : List Event → Option State
  | [] => some s
  | ev :: evs => (step httpAddr s ev).bind (fun s => run httpAddr s evs)

/-- Whether a record carries the key `"terminated"`. -/
def isTerminated (r : LogRecord) : Bool :=
  r.any (fun kv => kv.1 == "terminated")

/-- The records of a log that carry the key `"terminated"`, in order. -/
def terminatedRecords (log : List LogRecord) : List LogRecord :=
  log.filter isTerminated

/-- The number of values a task has sent on `errs`. -/
def sentBy (t : Task) (s : State) : Nat :=
  s.sent.countP (fun x => x.1 == t)

/-- The invariant of the supervisor: a task has sent once it is finished and not
before; what was sent is what `main` received followed by what the buffer
holds; `main` has received nothing while it waits and one value afterwards; the
log holds a `"terminated"` record, for the value received, once `main` has
returned and none before. -/
def Inv (s : State) : Prop :=
  sentBy .listener s = (if s.listener = .done then 1 else 0)
  ∧ sentBy .watcher s = (if s.watcher = .done then 1 else 0)
  ∧ s.sent.map Prod.snd = s.received ++ s.errs
  ∧ (s.supervisor = .receiving → s.received = [])
  ∧ (∀ v, s.supervisor = .logging v → s.received = [v])
  ∧ (s.supervisor = .returned → ∃ v, s.received = [v])
  ∧ terminatedRecords s.log
      = (if s.supervisor = .returned then s.received.map terminatedRecord else [])

end Main

namespace Handling

/-- C1: for every service and every request of type `registerIncidentRequest`
the endpoint returns normally with a nil transport error, and the response it
returns carries in `Err`, and through `error()`, exactly what
`RegisterHandlingEvent` returned: nil on success, the same error on failure. -/
theorem endpoint_embeds_service_result {σ : Type} (hs : Service σ) (ctx : Context)
    (req : registerIncidentRequest) (s : σ) :
    ∃ resp : registerIncidentResponse,
      (makeRegisterIncidentEndpoint hs ctx (.boxRequest req) s).1
          = .returned (.boxResponse resp, none)
      ∧ resp.Err
          = (hs.RegisterHandlingEvent req.CompletionTime req.ID req.Voyage req.Location
              req.EventType s).1
      ∧ resp.error
          = (hs.RegisterHandlingEvent req.CompletionTime req.ID req.Voyage req.Location
              req.EventType s).1 :=
  ⟨⟨_⟩, rfl, rfl, rfl⟩

/-- C2: one call of the endpoint on a `registerIncidentRequest` invokes
`RegisterHandlingEvent` exactly once: the journal of the recording service grows
by one call whose arguments are the request fields, each in its position, and
the world is left as that single call leaves it. -/
theorem endpoint_calls_service_once {σ : Type} (hs : Service σ) (ctx : Context)
    (req : registerIncidentRequest) (s : σ) (journal : List Call) :
    (makeRegisterIncidentEndpoint hs.recording ctx (.boxRequest req) (s, journal)).2
      = ((hs.RegisterHandlingEvent req.CompletionTime req.ID req.Voyage req.Location
            req.EventType s).2,
          journal ++ [{ completionTime := req.CompletionTime, trackingID := req.ID,
                        voyageNumber := req.Voyage, locationCode := req.Location,
                        eventType := req.EventType }]) :=
  rfl

/-- C10: the endpoint returns normally exactly on requests whose dynamic type
is `registerIncidentRequest`; on every other request value, nil included, the
type assertion panics, the service is not invoked and the world is untouched. -/
theorem endpoint_total_iff_request {σ : Type} (hs : Service σ) (ctx : Context)
    (request : Interface) (s : σ) (journal : List Call) :
    ((∃ out, (makeRegisterIncidentEndpoint hs.recording ctx request (s, journal)).1
          = .returned out) ↔ request.isRequest = true)
    ∧ (request.isRequest = false →
        makeRegisterIncidentEndpoint hs.recording ctx request (s, journal)
          = (.panicked (.typeAssertion request.dynType), (s, journal))) := by
  cases request <;> simp [makeRegisterIncidentEndpoint, Interface.isRequest]

/-- C10 at the nil interface and at a pointer to a request. -/
theorem endpoint_total_iff_request_witness :
    Interface.nil.isRequest = false
    ∧ makeRegisterIncidentEndpoint sampleService.recording ⟨0⟩ .nil (0, [])
        = (.panicked (.typeAssertion none), (0, []))
    ∧ makeRegisterIncidentEndpoint sampleService.recording ⟨0⟩
          (.other "*handling.registerIncidentRequest") (0, [])
        = (.panicked (.typeAssertion (some "*handling.registerIncidentRequest")), (0, [])) :=
  ⟨rfl, (endpoint_total_iff_request sampleService ⟨0⟩ .nil 0 []).2 rfl,
    (endpoint_total_iff_request sampleService ⟨0⟩ (.other "*handling.registerIncidentRequest")
      0 []).2 rfl⟩

end Handling

namespace Main

open Handling

/-! ## Header map lemmas -/

theorem Header.get_set_same (h : Header) (key value : String) :
    (h.Set key value).Get key = value := by
  simp [Header.Set, Header.Get, List.lookup]

theorem lookup_filter_ne (es : List (String × List String)) (k k' : String) (hne : k' ≠ k) :
    (es.filter (fun kv => kv.1 != k)).lookup k' = es.lookup k' := by
  induction es with
  | nil => rfl
  | cons e es ih =>
    obtain ⟨a, b⟩ := e
    by_cases hak : a = k
    · subst hak
      have hka : (k' == a) = false := by simpa using hne
      simp [List.filter, List.lookup, hka, ih]
    · have hk : (a != k) = true := by simpa using hak
      simp only [List.filter, hk, List.lookup]
      cases hka : (k' == a) <;> simp [ih]

theorem Header.get_set_other (h : Header) (key value key' : String)
    (hne : CanonicalMIMEHeaderKey key' ≠ CanonicalMIMEHeaderKey key) :
    (h.Set key value).Get key' = h.Get key' := by
  have hb : (CanonicalMIMEHeaderKey key' == CanonicalMIMEHeaderKey key) = false := by
    simpa using hne
  simp only [Header.Set, Header.Get, List.lookup, hb]
  rw [lookup_filter_ne _ _ _ hne]

theorem canonical_origin :
    CanonicalMIMEHeaderKey "Access-Control-Allow-Origin" = "Access-Control-Allow-Origin" := by
  decide

theorem canonical_methods :
    CanonicalMIMEHeaderKey "Access-Control-Allow-Methods" = "Access-Control-Allow-Methods" := by
  decide

theorem canonical_headers :
    CanonicalMIMEHeaderKey "Access-Control-Allow-Headers" = "Access-Control-Allow-Headers" := by
  decide

/-- The writer after the three `Header().Set` statements of `accessControl`:
the three headers read back with the values set, every other header reads as
before, and neither status nor body was touched. -/
theorem cors_headers_set (w : ResponseWriter) :
    let w' := ((w.headerSet "Access-Control-Allow-Origin" "*").headerSet
      "Access-Control-Allow-Methods" "GET, POST, OPTIONS").headerSet
      "Access-Control-Allow-Headers" "Origin, Content-Type"
    w'.header.Get "Access-Control-Allow-Origin" = "*"
    ∧ w'.header.Get "Access-Control-Allow-Methods" = "GET, POST, OPTIONS"
    ∧ w'.header.Get "Access-Control-Allow-Headers" = "Origin, Content-Type"
    ∧ (∀ key, CanonicalMIMEHeaderKey key ≠ "Access-Control-Allow-Origin" →
        CanonicalMIMEHeaderKey key ≠ "Access-Control-Allow-Methods" →
        CanonicalMIMEHeaderKey key ≠ "Access-Control-Allow-Headers" →
        w'.header.Get key = w.header.Get key)
    ∧ w'.status = w.status ∧ w'.body = w.body := by
  intro w'
  have hom : CanonicalMIMEHeaderKey "Access-Control-Allow-Origin"
      ≠ CanonicalMIMEHeaderKey "Access-Control-Allow-Methods" := by decide
  have hoh : CanonicalMIMEHeaderKey "Access-Control-Allow-Origin"
      ≠ CanonicalMIMEHeaderKey "Access-Control-Allow-Headers" := by decide
  have hmh : CanonicalMIMEHeaderKey "Access-Control-Allow-Methods"
      ≠ CanonicalMIMEHeaderKey "Access-Control-Allow-Headers" := by decide
  refine ⟨?_, ?_, ?_, ?_, rfl, rfl⟩
  · show (((w.header.Set _ _).Set _ _).Set _ _).Get _ = _
    rw [Header.get_set_other _ _ _ _ hoh, Header.get_set_other _ _ _ _ hom,
      Header.get_set_same]
  · show (((w.header.Set _ _).Set _ _).Set _ _).Get _ = _
    rw [Header.get_set_other _ _ _ _ hmh, Header.get_set_same]
  · show (((w.header.Set _ _).Set _ _).Set _ _).Get _ = _
    rw [Header.get_set_same]
  · intro key h1 h2 h3
    show (((w.header.Set _ _).Set _ _).Set _ _).Get _ = _
    rw [Header.get_set_other _ _ _ _ (by rw [canonical_headers]; exact h3),
      Header.get_set_other _ _ _ _ (by rw [canonical_methods]; exact h2),
      Header.get_set_other _ _ _ _ (by rw [canonical_origin]; exact h1)]

/-! ## `accessControl` -/

/-- C3: on a request whose method is OPTIONS, `accessControl h` sets the three
CORS headers, writes no body, leaves the status unset (so the server answers
with the default 200) and does not invoke `h`: the journal of invocations and
the world are unchanged. For the fresh writer of a new request the body is
empty and the status is 200. -/
theorem accessControl_options {σ : Type} (h : Handler σ) (w : ResponseWriter) (r : Request)
    (s : σ) (journal : List (ResponseWriter × Request)) (hm : r.Method = "OPTIONS") :
    (accessControl (recordingHandler h) w r (s, journal)).1.header.Get
        "Access-Control-Allow-Origin" = "*"
    ∧ (accessControl (recordingHandler h) w r (s, journal)).1.header.Get
        "Access-Control-Allow-Methods" = "GET, POST, OPTIONS"
    ∧ (accessControl (recordingHandler h) w r (s, journal)).1.header.Get
        "Access-Control-Allow-Headers" = "Origin, Content-Type"
    ∧ (accessControl (recordingHandler h) w r (s, journal)).1.body = w.body
    ∧ (accessControl (recordingHandler h) w r (s, journal)).1.status = w.status
    ∧ (accessControl (recordingHandler h) w r (s, journal)).2 = (s, journal)
    ∧ (accessControl (recordingHandler h) .fresh r (s, journal)).1.body = ""
    ∧ (accessControl (recordingHandler h) .fresh r (s, journal)).1.statusCode = 200 := by
  obtain ⟨h1, h2, h3, -, h5, h6⟩ := cors_headers_set w
  have hw : ∀ w₀ : ResponseWriter, accessControl (recordingHandler h) w₀ r (s, journal)
      = (((w₀.headerSet "Access-Control-Allow-Origin" "*").headerSet
          "Access-Control-Allow-Methods" "GET, POST, OPTIONS").headerSet
          "Access-Control-Allow-Headers" "Origin, Content-Type", (s, journal)) := by
    intro w₀
    simp only [accessControl, hm, if_true]
  rw [hw w, hw .fresh]
  exact ⟨h1, h2, h3, h6, h5, rfl, rfl, rfl⟩

/-- C3 at an OPTIONS request for the incidents route. -/
theorem accessControl_options_witness :
    (accessControl (recordingHandler sampleHandler) .fresh
        ⟨"OPTIONS", "/handling/v1/incidents", ""⟩ (0, [])).1.header.Get
        "Access-Control-Allow-Origin" = "*"
    ∧ (accessControl (recordingHandler sampleHandler) .fresh
        ⟨"OPTIONS", "/handling/v1/incidents", ""⟩ (0, [])).2 = (0, []) :=
  have h := accessControl_options sampleHandler .fresh
    ⟨"OPTIONS", "/handling/v1/incidents", ""⟩ 0 [] rfl
  ⟨h.1, h.2.2.2.2.2.1⟩

/-- C4: on a request whose method is not OPTIONS, `accessControl h` hands to `h`
the same writer with the three CORS headers already set to their values (other
headers, status and body as they were) and the same request, and does so
exactly once: its result is the result of that one invocation, and the journal
of invocations grows by exactly that entry. -/
theorem accessControl_delegates {σ : Type} (h : Handler σ) (w : ResponseWriter) (r : Request)
    (s : σ) (journal : List (ResponseWriter × Request)) (hm : r.Method ≠ "OPTIONS") :
    ∃ w' : ResponseWriter,
      w'.header.Get "Access-Control-Allow-Origin" = "*"
      ∧ w'.header.Get "Access-Control-Allow-Methods" = "GET, POST, OPTIONS"
      ∧ w'.header.Get "Access-Control-Allow-Headers" = "Origin, Content-Type"
      ∧ (∀ key, CanonicalMIMEHeaderKey key ≠ "Access-Control-Allow-Origin" →
          CanonicalMIMEHeaderKey key ≠ "Access-Control-Allow-Methods" →
          CanonicalMIMEHeaderKey key ≠ "Access-Control-Allow-Headers" →
          w'.header.Get key = w.header.Get key)
      ∧ w'.status = w.status ∧ w'.body = w.body
      ∧ accessControl h w r s = h w' r s
      ∧ accessControl (recordingHandler h) w r (s, journal)
          = ((h w' r s).1, ((h w' r s).2, journal ++ [(w', r)])) := by
  obtain ⟨h1, h2, h3, h4, h5, h6⟩ := cors_headers_set w
  refine ⟨_, h1, h2, h3, h4, h5, h6, ?_, ?_⟩
  · simp only [accessControl, hm, if_false]
  · simp only [accessControl, hm, if_false, recordingHandler]

/-- C4 at a POST request for the incidents route. -/
theorem accessControl_delegates_witness :
    ∃ w' : ResponseWriter,
      w'.header.Get "Access-Control-Allow-Origin" = "*"
      ∧ accessControl (recordingHandler sampleHandler) .fresh
          ⟨"POST", "/handling/v1/incidents", ""⟩ (0, [])
        = ((sampleHandler w' ⟨"POST", "/handling/v1/incidents", ""⟩ 0).1,
            ((sampleHandler w' ⟨"POST", "/handling/v1/incidents", ""⟩ 0).2,
              [(w', ⟨"POST", "/handling/v1/incidents", ""⟩)])) :=
  have ⟨w', h1, _, _, _, _, _, _, h8⟩ := accessControl_delegates sampleHandler .fresh
    ⟨"POST", "/handling/v1/incidents", ""⟩ 0 [] (by decide)
  ⟨w', h1, h8⟩

/-! ## Configuration -/

/-- C6: `envString` returns the variable's value when it is set and not empty
and the fallback otherwise; so the default of `-http.addr` is `":"` followed by
the value of PORT (`":8082"` when PORT is unset or empty) and the default of
`-service.routing` is the value of ROUTINGSERVICE_URL (`"http://localhost:7878"`
when it is unset or empty). -/
theorem envString_and_flag_defaults (environ : Environ) (env fallback : String) :
    (∀ v, environ env = some v → v ≠ "" → envString environ env fallback = v)
    ∧ (environ env = none ∨ environ env = some "" → envString environ env fallback = fallback)
    ∧ (∀ v, environ "PORT" = some v → v ≠ "" →
        flagDefault environ "http.addr" = some (":" ++ v))
    ∧ (environ "PORT" = none ∨ environ "PORT" = some "" →
        flagDefault environ "http.addr" = some ":8082")
    ∧ (∀ v, environ "ROUTINGSERVICE_URL" = some v → v ≠ "" →
        flagDefault environ "service.routing" = some v)
    ∧ (environ "ROUTINGSERVICE_URL" = none ∨ environ "ROUTINGSERVICE_URL" = some "" →
        flagDefault environ "service.routing" = some "http://localhost:7878") := by
  have hset : ∀ (k fb v : String), environ k = some v → v ≠ "" → envString environ k fb = v := by
    intro k fb v hv hne
    simp [envString, Getenv, hv, hne]
  have hunset : ∀ (k fb : String), environ k = none ∨ environ k = some "" →
      envString environ k fb = fb := by
    intro k fb hk
    rcases hk with hk | hk <;> simp [envString, Getenv, hk]
  have haddr : flagDefault environ "http.addr"
      = some (":" ++ envString environ "PORT" defaultPort) := by
    simp [flagDefault, mainFlags, List.find?]
  have hrs : flagDefault environ "service.routing"
      = some (envString environ "ROUTINGSERVICE_URL" defaultRoutingServiceURL) := by
    have hne : ("http.addr" == "service.routing") = false := by decide
    simp [flagDefault, mainFlags, List.find?, hne]
  refine ⟨hset env fallback, hunset env fallback, ?_, ?_, ?_, ?_⟩
  · intro v hv hne
    rw [haddr, hset _ _ v hv hne]
  · intro hk
    rw [haddr, hunset _ _ hk]
    rfl
  · intro v hv hne
    rw [hrs, hset _ _ v hv hne]
  · intro hk
    rw [hrs, hunset _ _ hk]
    rfl

/-- C6 in an environment that sets PORT to 9000 and ROUTINGSERVICE_URL to the
empty string. -/
theorem envString_and_flag_defaults_witness :
    envString (fun k => if k = "PORT" then some "9000" else
        if k = "ROUTINGSERVICE_URL" then some "" else none) "PORT" "8082" = "9000"
    ∧ flagDefault (fun k => if k = "PORT" then some "9000" else
        if k = "ROUTINGSERVICE_URL" then some "" else none) "http.addr" = some ":9000"
    ∧ flagDefault (fun k => if k = "PORT" then some "9000" else
        if k = "ROUTINGSERVICE_URL" then some "" else none) "service.routing"
        = some "http://localhost:7878" :=
  have h := envString_and_flag_defaults (fun k => if k = "PORT" then some "9000" else
        if k = "ROUTINGSERVICE_URL" then some "" else none) "PORT" "8082"
  ⟨h.1 "9000" (by decide) (by decide), h.2.2.1 "9000" (by decide) (by decide),
    h.2.2.2.2.2 (Or.inr (by decide))⟩

/-! ## Test data -/

/-- C9: with a repository whose `Store` always succeeds, `storeTestData` returns
after exactly two `Store` calls: first the cargo made by `cargo.New` for
`"FTL456"` (origin AUMEL, destination SESTO), then the one for `"ABC123"`
(origin SESTO, destination CNHKG). If the first `Store` fails it panics with
that error after that one call; if the second fails it panics with that error
after the two calls. -/
theorem storeTestData_stores_two_cargos {Cargo σ : Type} (x : External Cargo)
    (r : Repository Cargo σ) (now₁ now₂ : Time) (s : σ) (journal : List Cargo) :
    ((∀ c s', (r.Store c s').1 = none) →
        storeTestData x (recordingRepository r) now₁ now₂ (s, journal)
          = (.returned (),
              ((r.Store (x.New "ABC123" ⟨x.SESTO, x.CNHKG, x.AddDate now₂ 0 0 14⟩)
                  (r.Store (x.New "FTL456" ⟨x.AUMEL, x.SESTO, x.AddDate now₁ 0 0 7⟩) s).2).2,
                journal ++ [x.New "FTL456" ⟨x.AUMEL, x.SESTO, x.AddDate now₁ 0 0 7⟩,
                            x.New "ABC123" ⟨x.SESTO, x.CNHKG, x.AddDate now₂ 0 0 14⟩])))
    ∧ (∀ err, (r.Store (x.New "FTL456" ⟨x.AUMEL, x.SESTO, x.AddDate now₁ 0 0 7⟩) s).1
          = some err →
        storeTestData x (recordingRepository r) now₁ now₂ (s, journal)
          = (.panicked (.value err),
              ((r.Store (x.New "FTL456" ⟨x.AUMEL, x.SESTO, x.AddDate now₁ 0 0 7⟩) s).2,
                journal ++ [x.New "FTL456" ⟨x.AUMEL, x.SESTO, x.AddDate now₁ 0 0 7⟩])))
    ∧ (∀ err, (r.Store (x.New "FTL456" ⟨x.AUMEL, x.SESTO, x.AddDate now₁ 0 0 7⟩) s).1 = none →
        (r.Store (x.New "ABC123" ⟨x.SESTO, x.CNHKG, x.AddDate now₂ 0 0 14⟩)
          (r.Store (x.New "FTL456" ⟨x.AUMEL, x.SESTO, x.AddDate now₁ 0 0 7⟩) s).2).1
          = some err →
        storeTestData x (recordingRepository r) now₁ now₂ (s, journal)
          = (.panicked (.value err),
              ((r.Store (x.New "ABC123" ⟨x.SESTO, x.CNHKG, x.AddDate now₂ 0 0 14⟩)
                  (r.Store (x.New "FTL456" ⟨x.AUMEL, x.SESTO, x.AddDate now₁ 0 0 7⟩) s).2).2,
                journal ++ [x.New "FTL456" ⟨x.AUMEL, x.SESTO, x.AddDate now₁ 0 0 7⟩,
                            x.New "ABC123" ⟨x.SESTO, x.CNHKG, x.AddDate now₂ 0 0 14⟩]))) := by
  refine ⟨?_, ?_, ?_⟩
  · intro hok
    have h1 := hok (x.New "FTL456" ⟨x.AUMEL, x.SESTO, x.AddDate now₁ 0 0 7⟩) s
    have h2 := hok (x.New "ABC123" ⟨x.SESTO, x.CNHKG, x.AddDate now₂ 0 0 14⟩)
      (r.Store (x.New "FTL456" ⟨x.AUMEL, x.SESTO, x.AddDate now₁ 0 0 7⟩) s).2
    simp [storeTestData, recordingRepository, h1, h2]
  · intro err h1
    simp [storeTestData, recordingRepository, h1]
  · intro err h1 h2
    simp [storeTestData, recordingRepository, h1, h2]

/-- C9 on the sample repositories: the in-memory one ends up holding ABC123 with
origin SESTO after two calls, the one that is full from the start sees one call. -/
theorem storeTestData_stores_two_cargos_witness :
    storeTestData sampleExternal (recordingRepository sampleRepository) ⟨0⟩ ⟨5⟩ ([], [])
      = (.returned (),
          ([⟨"ABC123", ⟨"SESTO"⟩, ⟨⟨"SESTO"⟩, ⟨"CNHKG"⟩, ⟨1209600000000005⟩⟩⟩,
            ⟨"FTL456", ⟨"AUMEL"⟩, ⟨⟨"AUMEL"⟩, ⟨"SESTO"⟩, ⟨604800000000000⟩⟩⟩],
           [⟨"FTL456", ⟨"AUMEL"⟩, ⟨⟨"AUMEL"⟩, ⟨"SESTO"⟩, ⟨604800000000000⟩⟩⟩,
            ⟨"ABC123", ⟨"SESTO"⟩, ⟨⟨"SESTO"⟩, ⟨"CNHKG"⟩, ⟨1209600000000005⟩⟩⟩]))
    ∧ storeTestData sampleExternal (recordingRepository (boundedRepository 0)) ⟨0⟩ ⟨5⟩ ([], [])
      = (.panicked (.value ⟨"repository full"⟩),
          ([], [⟨"FTL456", ⟨"AUMEL"⟩, ⟨⟨"AUMEL"⟩, ⟨"SESTO"⟩, ⟨604800000000000⟩⟩⟩]))
    ∧ storeTestData sampleExternal (recordingRepository (boundedRepository 1)) ⟨0⟩ ⟨5⟩ ([], [])
      = (.panicked (.value ⟨"repository full"⟩),
          ([⟨"FTL456", ⟨"AUMEL"⟩, ⟨⟨"AUMEL"⟩, ⟨"SESTO"⟩, ⟨604800000000000⟩⟩⟩],
           [⟨"FTL456", ⟨"AUMEL"⟩, ⟨⟨"AUMEL"⟩, ⟨"SESTO"⟩, ⟨604800000000000⟩⟩⟩,
            ⟨"ABC123", ⟨"SESTO"⟩, ⟨⟨"SESTO"⟩, ⟨"CNHKG"⟩, ⟨1209600000000005⟩⟩⟩])) :=
  ⟨(storeTestData_stores_two_cargos sampleExternal sampleRepository ⟨0⟩ ⟨5⟩ [] []).1
      (fun _ _ => rfl),
    (storeTestData_stores_two_cargos sampleExternal (boundedRepository 0) ⟨0⟩ ⟨5⟩ [] []).2.1
      ⟨"repository full"⟩ rfl,
    (storeTestData_stores_two_cargos sampleExternal (boundedRepository 1) ⟨0⟩ ⟨5⟩ [] []).2.2
      ⟨"repository full"⟩ rfl rfl⟩

/-! ## The service chain -/

/-- C5: whatever the constructors are, the service `main` hands to
`handling.MakeHandler` is `NewInstrumentingService(counter, summary,
NewLoggingService(logger, NewService(handlingEvents, factory, handler)))`; read
as a chain of wrapped services it is Instrumenting, then Logging, then Core. -/
theorem mainHandler_service_chain :
    (∀ (k : Wiring) (logger : k.Logger) (handlingEvents : k.Events)
        (handlingEventFactory : k.Factory) (handlingEventHandler : k.EventHandler),
      mainHandler k logger handlingEvents handlingEventFactory handlingEventHandler
        = k.MakeHandler
            (k.NewInstrumentingService
              (k.NewCounterFrom ⟨"api", "handling_service", "request_count",
                "Number of requests received."⟩ ["method"])
              (k.NewSummaryFrom ⟨"api", "handling_service", "request_latency_microseconds",
                "Total duration of requests in microseconds."⟩ ["method"])
              (k.NewLoggingService (k.With logger "component" "handling")
                (k.NewService handlingEvents handlingEventFactory handlingEventHandler)))
            (k.With logger "component" "http"))
    ∧ (∀ (logger : List (String × String)) (handlingEvents factory handler : String),
        (mainHandler termWiring logger handlingEvents factory handler).1.chain
          = [.Instrumenting, .Logging, .Core]) :=
  ⟨fun _ _ _ _ _ => rfl, fun _ _ _ _ => rfl⟩

/-! ## The supervisor -/

theorem terminatedRecords_append (l₁ l₂ : List LogRecord) :
    terminatedRecords (l₁ ++ l₂) = terminatedRecords l₁ ++ terminatedRecords l₂ := by
  simp [terminatedRecords]

theorem terminatedRecords_listening (a : String) : terminatedRecords [listeningRecord a] = [] := by
  have h1 : ("transport" == "terminated") = false := by decide
  have h2 : ("address" == "terminated") = false := by decide
  have h3 : ("msg" == "terminated") = false := by decide
  simp [terminatedRecords, listeningRecord, isTerminated, h1, h2, h3]

theorem terminatedRecords_terminated (v : Error) :
    terminatedRecords [terminatedRecord v] = [terminatedRecord v] := by
  simp [terminatedRecords, terminatedRecord, isTerminated]

theorem inv_init : Inv .init := by
  simp [Inv, State.init, sentBy, terminatedRecords]

theorem inv_step (a : String) (s s' : State) (ev : Event) (hinv : Inv s)
    (hstep : step a s ev = some s') : Inv s' := by
  obtain ⟨l, w, sup, errs, killed, log, sent, received⟩ := s
  obtain ⟨h1, h2, h3, h4, h5, h6, h7⟩ := hinv
  simp only [sentBy] at h1 h2
  dsimp only at h1 h2 h3 h4 h5 h6 h7
  unfold step at hstep
  split at hstep
  · cases ev <;> simp only [act] at hstep
    · -- listenerLog
      split at hstep
      · cases hstep
        refine ⟨by simpa [sentBy] using h1, h2, h3, h4, h5, h6, ?_⟩
        simp only [terminatedRecords_append, terminatedRecords_listening, List.append_nil]
        exact h7
      · cases hstep
    · -- listenerFail
      split at hstep
      · cases hstep
        exact ⟨by simpa [sentBy] using h1, h2, h3, h4, h5, h6, h7⟩
      · cases hstep
    · -- listenerSend
      split at hstep
      · split at hstep
        · cases hstep
          refine ⟨?_, ?_, ?_, h4, h5, h6, h7⟩
          · simp only [sentBy, List.countP_append]
            rw [h1]
            simp
          · simp only [sentBy, List.countP_append]
            simpa using h2
          · simp [h3]
        · cases hstep
      · cases hstep
    · -- watcherNotify
      split at hstep
      · cases hstep
        exact ⟨h1, by simpa [sentBy] using h2, h3, h4, h5, h6, h7⟩
      · cases hstep
    · -- watcherWait
      split at hstep
      · cases hstep
        exact ⟨h1, by simpa [sentBy] using h2, h3, h4, h5, h6, h7⟩
      · cases hstep
    · -- watcherSend
      split at hstep
      · split at hstep
        · cases hstep
          refine ⟨?_, ?_, ?_, h4, h5, h6, h7⟩
          · simp only [sentBy, List.countP_append]
            simpa using h1
          · simp only [sentBy, List.countP_append]
            rw [h2]
            simp
          · simp [h3]
        · cases hstep
      · cases hstep
    · -- supervisorReceive
      split at hstep
      · cases hstep
        have hr := h4 rfl
        subst hr
        refine ⟨h1, h2, by simpa using h3, by simp, by simp, by simp, ?_⟩
        simpa using h7
      · cases hstep
    · -- supervisorLog
      split at hstep
      · cases hstep
        rename_i v hal
        have hr := h5 v rfl
        subst hr
        refine ⟨h1, h2, h3, by simp, by simp, by simp, ?_⟩
        simp only [terminatedRecords_append, terminatedRecords_terminated]
        simp at h7
        simp [h7]
      · cases hstep
    · -- signal
      split at hstep
      · split at hstep
        · cases hstep
          exact ⟨h1, by simpa [sentBy] using h2, h3, h4, h5, h6, h7⟩
        · cases hstep
          exact ⟨h1, h2, h3, h4, h5, h6, h7⟩
      · cases hstep
        exact ⟨h1, h2, h3, h4, h5, h6, h7⟩
  · simp at hstep

theorem inv_run (a : String) (evs : List Event) :
    ∀ s s', Inv s → run a s evs = some s' → Inv s' := by
  induction evs with
  | nil =>
    intro s s' hinv h
    simp only [run, Option.some.injEq] at h
    exact h ▸ hinv
  | cons ev evs ih =>
    intro s s' hinv h
    simp only [run] at h
    cases hs : step a s ev with
    | none => simp [hs] at h
    | some s₁ =>
      rw [hs] at h
      exact ih s₁ s' (inv_step a s s₁ ev hinv hs) h

theorem inv_reachable (a : String) (evs : List Event) (s : State)
    (h : run a .init evs = some s) : Inv s :=
  inv_run a evs .init s inv_init h

theorem sent_length (s : State) : s.sent.length = sentBy .listener s + sentBy .watcher s := by
  unfold sentBy
  induction s.sent with
  | nil => rfl
  | cons x xs ih =>
    obtain ⟨t, e⟩ := x
    cases t <;> simp [List.countP_cons, ih] <;> omega

theorem errs_length_le (s : State) (hinv : Inv s) :
    s.received.length + s.errs.length = sentBy .listener s + sentBy .watcher s := by
  have h := congrArg List.length hinv.2.2.1
  rw [List.length_map, List.length_append, sent_length] at h
  exact h.symm

theorem sentBy_le_one (s : State) (hinv : Inv s) (t : Task) : sentBy t s ≤ 1 := by
  cases t
  · rw [hinv.1]; split <;> omega
  · rw [hinv.2.1]; split <;> omega

theorem room_for_listener (s : State) (hinv : Inv s) (err : Error)
    (hl : s.listener = .sending err) : s.errs.length < errsCap := by
  have h := errs_length_le s hinv
  have h1 := hinv.1
  have h2 := sentBy_le_one s hinv .watcher
  rw [hl] at h1
  simp at h1
  unfold errsCap
  omega

theorem room_for_watcher (s : State) (hinv : Inv s) (err : Error)
    (hw : s.watcher = .sending err) : s.errs.length < errsCap := by
  have h := errs_length_le s hinv
  have h1 := hinv.2.1
  have h2 := sentBy_le_one s hinv .listener
  rw [hw] at h1
  simp at h1
  unfold errsCap
  omega

theorem received_after_receive (s : State) (hinv : Inv s) (hne : s.supervisor ≠ .receiving) :
    ∃ v, s.received = [v] := by
  obtain ⟨-, -, -, -, h5, h6, -⟩ := hinv
  cases hs : s.supervisor with
  | receiving => exact absurd hs hne
  | logging v => exact ⟨v, h5 v hs⟩
  | returned => exact h6 hs

theorem step_dead (a : String) (s : State) (ev : Event) (h : s.alive = false) :
    step a s ev = none := by
  simp [step, h]

theorem run_dead (a : String) (s s' : State) (evs : List Event) (h : s.alive = false)
    (hr : run a s evs = some s') : evs = [] ∧ s' = s := by
  cases evs with
  | nil =>
    simp only [run, Option.some.injEq] at hr
    exact ⟨rfl, hr.symm⟩
  | cons ev evs => simp [run, step_dead a s ev h] at hr

theorem run_append (a : String) (s : State) (evs₁ evs₂ : List Event) :
    run a s (evs₁ ++ evs₂) = (run a s evs₁).bind (fun s => run a s evs₂) := by
  induction evs₁ generalizing s with
  | nil => rfl
  | cons ev evs ih =>
    simp only [List.cons_append, run]
    cases step a s ev with
    | none => rfl
    | some s₁ => simpa using ih s₁

/-- C7: in every state the process can reach, by any interleaving of the two
goroutines, `main` and arriving signals: the capacity of `errs` is at least 2;
each goroutine has sent at most one value; a goroutine that stands at its send
completes it (the send does not block); `main` has received nothing while it
waits on `<-errs` and exactly one value afterwards, and what was sent is what
was received followed by what is left in the buffer, so the value received is
the first that arrived; while `main` waits, a value in the buffer can be
received; and once `main` has received it never receives again, so the other
value stays in the buffer. -/
theorem errs_sends_never_block (a : String) (evs : List Event) (s : State)
    (h : run a .init evs = some s) :
    2 ≤ errsCap
    ∧ (∀ t, sentBy t s ≤ 1)
    ∧ (s.alive = true → ∀ err, s.listener = .sending err →
        ∃ s', step a s .listenerSend = some s' ∧ s'.errs = s.errs ++ [err]
          ∧ s'.listener = .done)
    ∧ (s.alive = true → ∀ err, s.watcher = .sending err →
        ∃ s', step a s .watcherSend = some s' ∧ s'.errs = s.errs ++ [err]
          ∧ s'.watcher = .done)
    ∧ (s.supervisor = .receiving → s.received = [])
    ∧ (s.supervisor ≠ .receiving → ∃ v, s.received = [v])
    ∧ s.sent.map Prod.snd = s.received ++ s.errs
    ∧ (s.running = true → ∀ v rest, s.errs = v :: rest →
        ∃ s', step a s .supervisorReceive = some s' ∧ s'.supervisor = .logging v
          ∧ s'.received = [v] ∧ s'.errs = rest)
    ∧ (s.supervisor ≠ .receiving → step a s .supervisorReceive = none) := by
  have hinv := inv_reachable a evs s h
  refine ⟨le_refl _, sentBy_le_one s hinv, ?_, ?_, hinv.2.2.2.1, received_after_receive s hinv,
    hinv.2.2.1, ?_, ?_⟩
  · intro hal err hl
    have hroom := room_for_listener s hinv err hl
    refine ⟨{ s with listener := .done, errs := s.errs ++ [err],
                     sent := s.sent ++ [(.listener, err)] }, ?_, rfl, rfl⟩
    simp [step, hal, act, hl, hroom]
  · intro hal err hw
    have hroom := room_for_watcher s hinv err hw
    refine ⟨{ s with watcher := .done, errs := s.errs ++ [err],
                     sent := s.sent ++ [(.watcher, err)] }, ?_, rfl, rfl⟩
    simp [step, hal, act, hw, hroom]
  · intro hrun v rest he
    have hk : s.killed.isNone = true ∧ s.supervisor = .receiving := by
      simpa [State.running] using hrun
    have hal : s.alive = true := by simp [State.alive, hk.1, hk.2]
    have hrec := hinv.2.2.2.1 hk.2
    refine ⟨{ s with supervisor := .logging v, errs := rest, received := s.received ++ [v] },
      ?_, rfl, by simp [hrec], rfl⟩
    simp [step, hal, act, hk.2, he]
  · intro hne
    unfold step
    split
    · simp only [act]
      split
      · rename_i hsup _
        exact absurd hsup hne
      · rfl
    · rfl

/-- C7 on the interleaving in which the listener fails, SIGINT arrives before the
listener has sent, and both sends happen before `main` receives. -/
theorem errs_sends_never_block_witness :
    run ":8082" .init [.listenerLog, .listenerFail ⟨"bind: address already in use"⟩,
        .watcherNotify, .watcherWait, .signal .SIGINT, .listenerSend]
      = some { listener := .done, watcher := .sending ⟨"interrupt"⟩, supervisor := .receiving,
               errs := [⟨"bind: address already in use"⟩], killed := none,
               log := [listeningRecord ":8082"],
               sent := [(.listener, ⟨"bind: address already in use"⟩)], received := [] }
    ∧ ∃ s', step ":8082"
        { listener := .done, watcher := .sending ⟨"interrupt"⟩, supervisor := .receiving,
          errs := [⟨"bind: address already in use"⟩], killed := none,
          log := [listeningRecord ":8082"],
          sent := [(.listener, ⟨"bind: address already in use"⟩)], received := [] }
        .watcherSend = some s'
      ∧ s'.errs = [⟨"bind: address already in use"⟩, ⟨"interrupt"⟩] ∧ s'.watcher = .done :=
  ⟨rfl, (errs_sends_never_block ":8082" [.listenerLog,
      .listenerFail ⟨"bind: address already in use"⟩, .watcherNotify, .watcherWait,
      .signal .SIGINT, .listenerSend] _ rfl).2.2.2.1 rfl ⟨"interrupt"⟩ rfl⟩

theorem running_alive (s : State) (h : s.running = true) :
    s.killed = none ∧ s.supervisor = .receiving ∧ s.alive = true := by
  have hk : s.killed = none ∧ s.supervisor = .receiving := by
    simpa [State.running] using h
  exact ⟨hk.1, hk.2, by simp [State.alive, hk.1, hk.2]⟩

/-- From a running state with room in the buffer, a task's error that is sent on
an empty `errs` is received by `main`, logged under `"terminated"` and `main`
returns. -/
theorem receive_and_log (a : String) (s : State) (err : Error) (hrun : s.running = true)
    (he : s.errs = [err]) (hlog : terminatedRecords s.log = []) :
    ∃ s₃, run a s [.supervisorReceive, .supervisorLog] = some s₃
      ∧ s₃.supervisor = .returned ∧ s₃.log = s.log ++ [terminatedRecord err]
      ∧ terminatedRecords s₃.log = [terminatedRecord err] := by
  obtain ⟨hk, hsup, hal⟩ := running_alive s hrun
  refine ⟨{ s with supervisor := .returned, errs := [], received := s.received ++ [err],
                   log := s.log ++ [terminatedRecord err] }, ?_, rfl, rfl, ?_⟩
  · simp [run, step, hal, act, hsup, he, State.alive, hk]
  · simp [terminatedRecords_append, hlog, terminatedRecords_terminated]

/-- C8, as amended: from a reachable RUNNING state, (1) a SIGINT that arrives
while the watcher is blocked on `<-c` makes the watcher hold an error whose
message is `"interrupt"`, its send on `errs` goes through, and if `errs` was
empty `main` receives that error, logs it under `"terminated"` and returns;
(2) the same for the error with which `http.ListenAndServe` returns; and in any
reachable state (3) once `main` has returned the log holds exactly one
`"terminated"` record, for the first value sent on `errs`, and nothing more
happens, while (4) before that the log holds no such record. -/
theorem first_error_is_logged_once (a : String) (evs : List Event) (s : State)
    (h : run a .init evs = some s) :
    (s.running = true → s.watcher = .receiving →
      ∃ s₁ s₂, step a s (.signal .SIGINT) = some s₁ ∧ s₁.watcher = .sending ⟨"interrupt"⟩
        ∧ step a s₁ .watcherSend = some s₂ ∧ s₂.errs = s.errs ++ [⟨"interrupt"⟩]
        ∧ (s.errs = [] →
            ∃ s₃, run a s₂ [.supervisorReceive, .supervisorLog] = some s₃
              ∧ s₃.supervisor = .returned
              ∧ s₃.log = s.log ++ [terminatedRecord ⟨"interrupt"⟩]
              ∧ terminatedRecords s₃.log = [terminatedRecord ⟨"interrupt"⟩]))
    ∧ (s.running = true → s.listener = .serving → ∀ err,
      ∃ s₁ s₂, step a s (.listenerFail err) = some s₁ ∧ s₁.listener = .sending err
        ∧ step a s₁ .listenerSend = some s₂ ∧ s₂.errs = s.errs ++ [err]
        ∧ (s.errs = [] →
            ∃ s₃, run a s₂ [.supervisorReceive, .supervisorLog] = some s₃
              ∧ s₃.supervisor = .returned
              ∧ s₃.log = s.log ++ [terminatedRecord err]
              ∧ terminatedRecords s₃.log = [terminatedRecord err]))
    ∧ (s.supervisor = .returned →
        ∃ t v, s.sent.head? = some (t, v) ∧ terminatedRecords s.log = [terminatedRecord v]
          ∧ ∀ ev, step a s ev = none)
    ∧ (s.supervisor ≠ .returned → terminatedRecords s.log = []) := by
  have hinv := inv_reachable a evs s h
  refine ⟨?_, ?_, ?_, ?_⟩
  · intro hrun hw
    obtain ⟨hk, hsup, hal⟩ := running_alive s hrun
    have hstep₁ : step a s (.signal .SIGINT)
        = some { s with watcher := .sending ⟨"interrupt"⟩ } := by
      simp [step, hal, act, hw, Errorf, Signal.toString]
    have hinv₁ := inv_step a s _ _ hinv hstep₁
    have hroom := room_for_watcher _ hinv₁ ⟨"interrupt"⟩ rfl
    have hal₁ : ({ s with watcher := WatcherPC.sending ⟨"interrupt"⟩ } : State).alive = true := hal
    refine ⟨_, { s with watcher := .done, errs := s.errs ++ [⟨"interrupt"⟩],
                        sent := s.sent ++ [(.watcher, ⟨"interrupt"⟩)] }, hstep₁, rfl, ?_, rfl, ?_⟩
    · simp only [step, hal₁, if_true, act]
      simp only [] at hroom
      simp [hroom]
    · intro he
      have hlog : terminatedRecords s.log = [] := by
        have := hinv.2.2.2.2.2.2
        simpa [hsup] using this
      exact receive_and_log a _ ⟨"interrupt"⟩ (by simpa [State.running] using hrun)
        (by simp [he]) hlog
  · intro hrun hl err
    obtain ⟨hk, hsup, hal⟩ := running_alive s hrun
    have hstep₁ : step a s (.listenerFail err) = some { s with listener := .sending err } := by
      simp [step, hal, act, hl]
    have hinv₁ := inv_step a s _ _ hinv hstep₁
    have hroom := room_for_listener _ hinv₁ err rfl
    have hal₁ : ({ s with listener := ListenerPC.sending err } : State).alive = true := hal
    refine ⟨_, { s with listener := .done, errs := s.errs ++ [err],
                        sent := s.sent ++ [(.listener, err)] }, hstep₁, rfl, ?_, rfl, ?_⟩
    · simp only [step, hal₁, if_true, act]
      simp only [] at hroom
      simp [hroom]
    · intro he
      have hlog : terminatedRecords s.log = [] := by
        have := hinv.2.2.2.2.2.2
        simpa [hsup] using this
      exact receive_and_log a _ err (by simpa [State.running] using hrun)
        (by simp [he]) hlog
  · intro hret
    obtain ⟨v, hv⟩ := hinv.2.2.2.2.2.1 hret
    have hsent := hinv.2.2.1
    have hlog := hinv.2.2.2.2.2.2
    rw [hv] at hsent
    rw [if_pos hret, hv] at hlog
    cases hs : s.sent with
    | nil => simp [hs] at hsent
    | cons x xs =>
      obtain ⟨t, v'⟩ := x
      rw [hs] at hsent
      simp only [List.map_cons, List.singleton_append, List.cons.injEq] at hsent
      refine ⟨t, v, by simp [hsent.1], by simpa using hlog, ?_⟩
      intro ev
      exact step_dead a s ev (by simp [State.alive, hret])
  · intro hne
    have hlog := hinv.2.2.2.2.2.2
    rw [if_neg hne] at hlog
    exact hlog

/-- C8 at the state in which the listener serves and the watcher is blocked on
`<-c`: SIGINT leads to the single record `terminated=interrupt`. -/
theorem first_error_is_logged_once_witness :
    run ":8082" .init [.listenerLog, .watcherNotify, .watcherWait]
      = some { listener := .serving, watcher := .receiving, supervisor := .receiving,
               errs := [], killed := none, log := [listeningRecord ":8082"], sent := [],
               received := [] }
    ∧ ∃ s₁ s₂,
        step ":8082"
          { listener := .serving, watcher := .receiving, supervisor := .receiving,
            errs := [], killed := none, log := [listeningRecord ":8082"], sent := [],
            received := [] } (.signal .SIGINT) = some s₁
        ∧ s₁.watcher = .sending ⟨"interrupt"⟩
        ∧ step ":8082" s₁ .watcherSend = some s₂
        ∧ s₂.errs = [⟨"interrupt"⟩]
        ∧ ∃ s₃, run ":8082" s₂ [.supervisorReceive, .supervisorLog] = some s₃
            ∧ s₃.supervisor = .returned
            ∧ s₃.log = [listeningRecord ":8082", terminatedRecord ⟨"interrupt"⟩]
            ∧ terminatedRecords s₃.log = [terminatedRecord ⟨"interrupt"⟩] :=
  have ⟨s₁, s₂, h1, h2, h3, h4, h5⟩ :=
    (first_error_is_logged_once ":8082" [.listenerLog, .watcherNotify, .watcherWait] _ rfl).1
      rfl rfl
  ⟨rfl, s₁, s₂, h1, h2, h3, h4, h5 rfl⟩

/-- C8 fails as stated: in the running state in which the watcher is blocked on
`<-c`, SIGTERM, a termination signal the watcher did not register for, ends
the process; whatever is tried afterwards, nothing was sent on `errs`, `main`
has not returned, and the log has no `"terminated"` record. -/
theorem sigterm_is_not_relayed :
    (run ":8082" .init [.listenerLog, .watcherNotify, .watcherWait]).map State.running
      = some true
    ∧ ¬ ∃ evs s',
        run ":8082" .init
          ([.listenerLog, .watcherNotify, .watcherWait, .signal .SIGTERM] ++ evs) = some s'
        ∧ (s'.sent ≠ [] ∨ s'.supervisor = .returned ∨ terminatedRecords s'.log ≠ []) := by
  refine ⟨rfl, ?_⟩
  rintro ⟨evs, s', hr, hbad⟩
  have hk : run ":8082" .init [.listenerLog, .watcherNotify, .watcherWait, .signal .SIGTERM]
      = some { listener := .serving, watcher := .receiving, supervisor := .receiving,
               errs := [], killed := some .SIGTERM, log := [listeningRecord ":8082"],
               sent := [], received := [] } := rfl
  rw [run_append, hk] at hr
  have hr' : run ":8082"
      { listener := .serving, watcher := .receiving, supervisor := .receiving,
        errs := [], killed := some .SIGTERM, log := [listeningRecord ":8082"],
        sent := [], received := [] } evs = some s' := hr
  obtain ⟨-, hs⟩ := run_dead ":8082" _ s' evs (by rfl) hr'
  subst hs
  rcases hbad with hb | hb | hb
  · exact hb rfl
  · cases hb
  · exact hb (terminatedRecords_listening ":8082")

end Main
